import Mathlib

/-!
Verification of the `async_dropx` crate (src/src/lib.rs): a scope guard
`AsyncDropx<T>` holding `inner : Option<T>`, with `Deref`/`DerefMut`
accessors that `expect` the slot to be full, and a `Drop` implementation
that takes the inner value, calls `async_drop` to obtain a future, and
hands it to a compile-time-selected backend (tokio, then async-std),
printing a diagnostic to stderr when no backend takes it.

The embedding is shallow: the feature flags `tokio` / `async-std` become a
`Config` record of booleans, the runtime fact "tokio::runtime::Handle::
try_current() returns Ok" becomes a boolean in `RuntimeCtx`, the resource
type `T` and its continuation (future) type `C` are type parameters, the
trait method `async_drop` is a function `T → C`, and the `Drop` impl is a
pure function returning the successor guard state together with a trace of
its observable effects (number of `async_drop` invocations, and what
happened to the produced continuation).
-/

namespace AsyncDropxLib

/-- Compile-time feature selection of `Cargo.toml`: one boolean per
supported backend (`tokio`, `async-std`). -/
structure Config where
  tokio : Bool
  async_std : Bool
deriving DecidableEq, Repr

/-- Runtime facts the `Drop` impl consults: whether
`tokio::runtime::Handle::try_current()` succeeds at the caller. -/
structure RuntimeCtx where
  tokioCurrent : Bool
deriving DecidableEq, Repr

/-- The two concrete backends of the adapter layer. -/
inductive Backend where
  | tokio
  | asyncStd
deriving DecidableEq, Repr

/-- Classification of the stderr diagnostic lines in the `Drop` impl. -/
inductive Diag where
  /-- "AsyncDropx: No async runtime feature enabled (tokio/async-std).
  Cleanup leaked." -/
  | noBackend
  /-- "AsyncDropx: Failed to spawn async cleanup task. Runtime might be
  missing or shut down." -/
  | backendUnreachable
deriving DecidableEq, Repr

/-- The stderr lines printed on the fall-through path of `drop`: the
source has two `cfg`-gated `eprintln!` blocks in sequence, one compiled
when no backend feature is enabled, one compiled when at least one is. -/
def rejectDiagnostics (cfg : Config) : List Diag :=
  (if cfg.tokio = false ∧ cfg.async_std = false then [Diag.noBackend] else []) ++
  (if cfg.tokio = true ∨ cfg.async_std = true then [Diag.backendUnreachable] else [])

/-- Outcome of handing a continuation to the backend adapter: either some
backend took ownership of it, or it is dropped unrun and the stderr lines
of the fall-through path are emitted. -/
inductive SubmitResult (C : Type u) where
  | accepted (target : Backend) (cont : C)
  | rejected (droppedCont : C) (stderr : List Diag)
deriving DecidableEq, Repr

/-- The backend-selection part of `impl Drop for AsyncDropx`: the
`cfg(feature = "tokio")` block spawns on the current tokio handle and
returns when `try_current()` succeeds; the `cfg(feature = "async-std")`
block spawns unconditionally and returns; the fall-through prints the
`cfg`-gated diagnostics. -/
def submit (cfg : Config) (ctx : RuntimeCtx) (c : C) : SubmitResult C :=
  if cfg.tokio && ctx.tokioCurrent then .accepted .tokio c
  else if cfg.async_std then .accepted .asyncStd c
  else .rejected c (rejectDiagnostics cfg)

/-- The guard struct of the source: `pub struct AsyncDropx<T>` with field `inner: Option<T>`. -/
structure AsyncDropx (T : Type u) where
  inner : Option T
deriving DecidableEq, Repr

namespace AsyncDropx

/-- Constructor `AsyncDropx::new`: stores the value, `Self { inner: Some(inner) }`. -/
def new (inner : T) : AsyncDropx T := ⟨some inner⟩

/-- Read access `Deref::deref`: `self.inner.as_ref().expect(...)`; the
failure of `expect` (a panic) is modelled as the `Except.error` branch. -/
def deref (g : AsyncDropx T) : Except String T :=
  match g.inner with
  | some v => .ok v
  | none => .error "Inner value is missing - this should never happen unless already dropped"

/-- Mutable access `DerefMut::deref_mut`: `self.inner.as_mut().expect(...)`;
reading through the mutable reference. -/
def deref_mut (g : AsyncDropx T) : Except String T :=
  match g.inner with
  | some v => .ok v
  | none => .error "Inner value is missing - this should never happen unless already dropped"

/-- Writing `*guard = v` through the `DerefMut` reference: replaces the
value stored in the slot; panics (errors) when the slot is empty. -/
def derefMutWrite (g : AsyncDropx T) (v : T) : Except String (AsyncDropx T) :=
  match g.inner with
  | some _ => .ok ⟨some v⟩
  | none => .error "Inner value is missing - this should never happen unless already dropped"

/-- Observable effects of one `Drop::drop` call: how many times
`async_drop` was invoked, and (when the guard was armed) what became of
the produced continuation. -/
structure DropTrace (C : Type u) where
  asyncDropCalls : Nat
  submitOutcome : Option (SubmitResult C)
deriving DecidableEq, Repr

/-- Destructor `impl Drop for AsyncDropx`: `if let Some(inner) = self.inner.take()`,
then `let _future = inner.async_drop()` followed by the backend selection
of `submit`; on an empty slot, nothing happens. `ad` is the trait method
`AsyncDrop::async_drop`. Returns the guard state after the call together
with the trace of observable effects. -/
def dropIt (cfg : Config) (ctx : RuntimeCtx) (ad : T → C) (g : AsyncDropx T) :
    AsyncDropx T × DropTrace C :=
  match g.inner with
  | none => (⟨none⟩, ⟨0, none⟩)
  | some inner =>
    let fut := ad inner
    (⟨none⟩, ⟨1, some (submit cfg ctx fut)⟩)

/-- The user-visible operations on a live guard, i.e. everything except
destruction: shared read access, mutable read access, and writing a new
value through the mutable reference. -/
inductive AccessOp (T : Type u) where
  | deref
  | derefMut
  | write (v : T)

/-- Apply one access operation to the guard: `deref` and `deref_mut` only
read (they return the guard unchanged when the slot is full, and panic
otherwise); `write` goes through `derefMutWrite`. -/
def applyAccess (g : AsyncDropx T) : AccessOp T → Except String (AsyncDropx T)
  | .deref => (deref g).map fun _ => g
  | .derefMut => (deref_mut g).map fun _ => g
  | .write v => derefMutWrite g v

/-- Run a sequence of access operations on the guard, stopping at the
first panic. -/
def runAccess (g : AsyncDropx T) : List (AccessOp T) → Except String (AsyncDropx T)
  | [] => .ok g
  | op :: ops => (applyAccess g op).bind fun g2 => runAccess g2 ops

end AsyncDropx

end AsyncDropxLib

namespace AsyncDropxLib

/-- Helper: starting from any armed guard, any sequence of access
operations succeeds (no panic) and ends in an armed guard. -/
theorem runAccess_armed {T : Type} (v : T) (ops : List (AsyncDropx.AccessOp T)) :
    ∃ w, AsyncDropx.runAccess (⟨some v⟩ : AsyncDropx T) ops = .ok ⟨some w⟩ := by
  induction ops generalizing v with
  | nil => exact ⟨v, rfl⟩
  | cons op ops ih =>
    cases op with
    | deref => exact ih v
    | derefMut => exact ih v
    | write w => exact ih w

/-- C1: for every guard that is constructed, used through any sequence of
accesses, and then destroyed, `async_drop` is invoked exactly once by the
destruction; a second destruction of the resulting disarmed guard invokes
it zero further times (at most once over the whole lifetime). -/
theorem async_drop_exactly_once {T C : Type} (cfg cfg2 : Config) (ctx ctx2 : RuntimeCtx)
    (ad : T → C) (r : T) (ops : List (AsyncDropx.AccessOp T)) (g : AsyncDropx T)
    (h : AsyncDropx.runAccess (AsyncDropx.new r) ops = .ok g) :
    (AsyncDropx.dropIt cfg ctx ad g).2.asyncDropCalls = 1 ∧
    (AsyncDropx.dropIt cfg2 ctx2 ad (AsyncDropx.dropIt cfg ctx ad g).1).2.asyncDropCalls = 0 := by
  obtain ⟨w, hw⟩ := runAccess_armed r ops
  have hg : g = ⟨some w⟩ := by
    have : AsyncDropx.runAccess (AsyncDropx.new r) ops = .ok (⟨some w⟩ : AsyncDropx T) := hw
    rw [h] at this
    exact (Except.ok.injEq _ _).mp this
  subst hg
  exact ⟨rfl, rfl⟩

/-- Witness for C1 at a concrete lifetime: guard over `5 : Nat`, accessed
by a read, a write of `7` and a mutable read, then destroyed twice. -/
theorem async_drop_exactly_once_witness :
    (AsyncDropx.dropIt ⟨true, false⟩ ⟨true⟩ (fun n : Nat => n + 1) ⟨some 7⟩).2.asyncDropCalls = 1 ∧
    (AsyncDropx.dropIt ⟨false, false⟩ ⟨false⟩ (fun n : Nat => n + 1)
      (AsyncDropx.dropIt ⟨true, false⟩ ⟨true⟩ (fun n : Nat => n + 1) ⟨some 7⟩).1).2.asyncDropCalls = 0 :=
  async_drop_exactly_once ⟨true, false⟩ ⟨false, false⟩ ⟨true⟩ ⟨false⟩
    (fun n => n + 1) 5 [.deref, .write 7, .derefMut] ⟨some 7⟩ (by rfl)

/-- C2: destruction on a disarmed guard is a safe no-op (no `async_drop`
call, no submission, no fault); on an armed guard it disarms the slot,
moves the resource out, calls `async_drop` on it to obtain the
continuation, and submits that continuation to the adapter; and the
caller-visible result (the successor guard state) is independent of the
outcome of `submit` — the same for every backend configuration and
runtime context. -/
theorem drop_destruction_sequence {T C : Type} (cfg cfg2 : Config) (ctx ctx2 : RuntimeCtx)
    (ad : T → C) (r : T) :
    AsyncDropx.dropIt cfg ctx ad (⟨none⟩ : AsyncDropx T) = (⟨none⟩, ⟨0, none⟩) ∧
    AsyncDropx.dropIt cfg ctx ad (⟨some r⟩ : AsyncDropx T) =
      (⟨none⟩, ⟨1, some (submit cfg ctx (ad r))⟩) ∧
    (AsyncDropx.dropIt cfg ctx ad (⟨some r⟩ : AsyncDropx T)).1 =
      (AsyncDropx.dropIt cfg2 ctx2 ad (⟨some r⟩ : AsyncDropx T)).1 :=
  ⟨rfl, rfl, rfl⟩

/-- C3: construction is total and arms the guard with the given resource,
and any guard reachable from construction through access operations alone
is still armed, so the empty-slot failure branch of `deref` and
`deref_mut` is unreachable: both accessors succeed. -/
theorem deref_never_observes_disarmed {T : Type} (r : T)
    (ops : List (AsyncDropx.AccessOp T)) (g : AsyncDropx T)
    (h : AsyncDropx.runAccess (AsyncDropx.new r) ops = .ok g) :
    (AsyncDropx.new r).inner = some r ∧
    g.inner.isSome = true ∧
    (AsyncDropx.deref g).isOk = true ∧
    (AsyncDropx.deref_mut g).isOk = true := by
  obtain ⟨w, hw⟩ := runAccess_armed r ops
  have hg : g = ⟨some w⟩ := by
    have : AsyncDropx.runAccess (AsyncDropx.new r) ops = .ok (⟨some w⟩ : AsyncDropx T) := hw
    rw [h] at this
    exact (Except.ok.injEq _ _).mp this
  subst hg
  exact ⟨rfl, rfl, rfl, rfl⟩

/-- Witness for C3: a concrete access sequence on a guard over `3 : Nat`. -/
theorem deref_never_observes_disarmed_witness :
    (AsyncDropx.new (3 : Nat)).inner = some 3 ∧
    (⟨some 9⟩ : AsyncDropx Nat).inner.isSome = true ∧
    (AsyncDropx.deref (⟨some 9⟩ : AsyncDropx Nat)).isOk = true ∧
    (AsyncDropx.deref_mut (⟨some 9⟩ : AsyncDropx Nat)).isOk = true :=
  deref_never_observes_disarmed 3 [.derefMut, .write 9, .deref] ⟨some 9⟩ (by rfl)

/-- C4: with both backends compiled in, `submit` tries tokio first and
accepts on it exactly when a tokio context is active, otherwise accepts on
async-std, so it never rejects; and in every configuration, a rejection
happens exactly when no backend succeeds — tokio succeeds when compiled in
with an active context, async-std succeeds whenever compiled in. -/
theorem submit_priority_order {C : Type} (cfg : Config) (ctx : RuntimeCtx) (c : C) :
    submit ⟨true, true⟩ ctx c =
      .accepted (if ctx.tokioCurrent then .tokio else .asyncStd) c ∧
    ((∃ c' lines, submit cfg ctx c = .rejected c' lines) ↔
      ((cfg.tokio && ctx.tokioCurrent) = false ∧ cfg.async_std = false)) := by
  rcases cfg with ⟨t, a⟩
  rcases ctx with ⟨tc⟩
  cases t <;> cases a <;> cases tc <;>
    simp [submit, rejectDiagnostics]

/-- C5: whenever `submit` rejects, the dropped continuation is exactly the
one submitted (it is never handed to a backend), exactly one stderr line
is emitted, and its classification is correct: the "no backend" line
appears exactly when no backend is compiled in, and the "unreachable"
line exactly when some backend is compiled in. -/
theorem reject_drops_cont_single_diag {C : Type} (cfg : Config) (ctx : RuntimeCtx)
    (c c' : C) (lines : List Diag)
    (h : submit cfg ctx c = .rejected c' lines) :
    c' = c ∧ lines.length = 1 ∧
    (lines = [Diag.noBackend] ↔ (cfg.tokio = false ∧ cfg.async_std = false)) ∧
    (lines = [Diag.backendUnreachable] ↔ (cfg.tokio = true ∨ cfg.async_std = true)) := by
  rcases cfg with ⟨t, a⟩
  rcases ctx with ⟨tc⟩
  cases t <;> cases a <;> cases tc <;>
    simp_all [submit, rejectDiagnostics] <;>
    (rcases h with ⟨h1, h2⟩ ; subst h2 ; decide)

/-- Witness for C5: the no-feature configuration rejects with the
"no backend" diagnostic. -/
theorem reject_drops_cont_single_diag_witness :
    (0 : Nat) = 0 ∧ [Diag.noBackend].length = 1 ∧
    ([Diag.noBackend] = [Diag.noBackend] ↔ ((false : Bool) = false ∧ (false : Bool) = false)) ∧
    ([Diag.noBackend] = [Diag.backendUnreachable] ↔ ((false : Bool) = true ∨ (false : Bool) = true)) :=
  reject_drops_cont_single_diag ⟨false, false⟩ ⟨false⟩ 0 0 [Diag.noBackend] (by rfl)

/-- C6: with no backend compiled in, every submission is rejected, the
continuation is dropped, and the single "no backend" diagnostic is
emitted. -/
theorem no_backend_always_rejects {C : Type} (ctx : RuntimeCtx) (c : C) :
    submit ⟨false, false⟩ ctx c = .rejected c [Diag.noBackend] := by
  rcases ctx with ⟨tc⟩
  cases tc <;> simp [submit, rejectDiagnostics]

/-- C7: with tokio compiled in, the continuation is accepted on tokio
exactly when the caller has an active tokio context (whatever the other
feature); and with tokio the only backend, no active context means the
submission is rejected. -/
theorem tokio_accept_iff_context {C : Type} (ctx : RuntimeCtx) (c : C) (asd : Bool) :
    (submit ⟨true, asd⟩ ctx c = .accepted .tokio c ↔ ctx.tokioCurrent = true) ∧
    submit ⟨true, false⟩ ctx c =
      (if ctx.tokioCurrent then .accepted .tokio c
       else .rejected c [Diag.backendUnreachable]) := by
  rcases ctx with ⟨tc⟩
  cases tc <;> cases asd <;> simp [submit, rejectDiagnostics]

/-- C8: access through a live guard is the identity on the stored
resource: reading yields exactly the wrapped value (no copy or transform),
and writing through the guard replaces the stored resource with the
written value, after which reading yields that value. -/
theorem transparent_access {T : Type} (r v : T) :
    AsyncDropx.deref (AsyncDropx.new r) = .ok r ∧
    AsyncDropx.deref_mut (AsyncDropx.new r) = .ok r ∧
    AsyncDropx.derefMutWrite (AsyncDropx.new r) v = .ok (AsyncDropx.new v) ∧
    AsyncDropx.deref (AsyncDropx.new v) = .ok v :=
  ⟨rfl, rfl, rfl, rfl⟩

/-- C9: access operations never change the guard's state — `deref` and
`deref_mut` leave an armed guard armed with the same resource, a write
leaves it armed (holding the written value), and only destruction
transitions the guard from armed to disarmed. -/
theorem access_preserves_armed {T C : Type} (cfg : Config) (ctx : RuntimeCtx)
    (ad : T → C) (r v : T) :
    AsyncDropx.applyAccess (⟨some r⟩ : AsyncDropx T) .deref = .ok ⟨some r⟩ ∧
    AsyncDropx.applyAccess (⟨some r⟩ : AsyncDropx T) .derefMut = .ok ⟨some r⟩ ∧
    AsyncDropx.applyAccess (⟨some r⟩ : AsyncDropx T) (.write v) = .ok ⟨some v⟩ ∧
    (AsyncDropx.dropIt cfg ctx ad (⟨some r⟩ : AsyncDropx T)).1 = ⟨none⟩ :=
  ⟨rfl, rfl, rfl, rfl⟩

/-- C10 counterexample: with async-std compiled in (alongside tokio) and
an active tokio context, the continuation is handed to tokio, not to
async-std's scheduler — so it is not unconditionally spawned onto
async-std whenever async-std is compiled in. -/
theorem asyncstd_not_unconditional_target :
    submit ⟨true, true⟩ ⟨true⟩ (0 : Nat) = .accepted .tokio 0 ∧
    submit ⟨true, true⟩ ⟨true⟩ (0 : Nat) ≠ .accepted .asyncStd 0 := by
  decide

/-- C10 amended: when async-std is compiled in, submission never rejects
and never emits a diagnostic; the continuation is spawned onto async-std's
scheduler unless tokio is also compiled in and has an active context, in
which case tokio takes it first. -/
theorem asyncstd_never_rejects {C : Type} (cfg : Config) (ctx : RuntimeCtx) (c : C)
    (h : cfg.async_std = true) :
    submit cfg ctx c =
      .accepted (if cfg.tokio && ctx.tokioCurrent then .tokio else .asyncStd) c := by
  rcases cfg with ⟨t, a⟩
  rcases ctx with ⟨tc⟩
  subst h
  cases t <;> cases tc <;> simp [submit]

/-- Witness for C10 amended: async-std alone, no tokio context. -/
theorem asyncstd_never_rejects_witness :
    submit ⟨false, true⟩ ⟨false⟩ (4 : Nat) =
      .accepted (if (false : Bool) && (false : Bool) then .tokio else .asyncStd) 4 :=
  asyncstd_never_rejects ⟨false, true⟩ ⟨false⟩ 4 (by rfl)

end AsyncDropxLib
